import Mathlib

/-!
Verification of the MCD Target Hunter core scanner
(`src/mcdtargethunter/mcd_hunter_core.py`).

The scanner is a pure function of (lines, config): it keeps four rolling
"last seen" context trackers, updates them line by line, and emits one hit
record per line containing the target text.  We embed the Python source
shallowly: strings are Lean `String`s (lists of characters), the three
tool-number regular expressions are compiled by hand into deterministic
character-list matchers (their character classes are the ASCII ones, which
the spec declares sufficient), and the CSV writer is modelled as producing
its list of rows, each a list of cell strings.
-/

namespace MCDHunter

/-- ASCII word character, the embedding of the regex class `\w`. -/
def isWordChar (c : Char) : Bool := c.isAlphanum || c == '_'

/-- Lowercasing of a string, the embedding of Python `str.lower()`
(ASCII folding, which the spec accepts). -/
def strLower (s : String) : String := ⟨s.data.map Char.toLower⟩

/-- Embedding of Python `str.strip()`: drop whitespace from both ends. -/
def pyStrip (s : String) : String :=
  ⟨((s.data.dropWhile Char.isWhitespace).reverse.dropWhile Char.isWhitespace).reverse⟩

/-- Does the second list start with the first one? -/
def leadsWith : List Char → List Char → Bool
  | [], _ => true
  | _ :: _, [] => false
  | a :: ns, b :: hs => a == b && leadsWith ns hs

/-- Substring occurrence on character lists: the embedding of Python's
`needle in haystack` for a non-empty needle. -/
def occursIn (needle : List Char) : List Char → Bool
  | [] => needle.isEmpty
  | c :: t => leadsWith needle (c :: t) || occursIn needle (t)

/-- `_contains` from the source: false for the empty needle, otherwise a
substring test, with both operands lowercased when `case_sensitive` is
false. -/
def _contains (haystack needle : String) (case_sensitive : Bool) : Bool :=
  if needle.data.isEmpty then false
  else if case_sensitive then occursIn needle.data haystack.data
  else occursIn (strLower needle).data (strLower haystack).data

/-- One pattern character against one input character, honouring the
`re.IGNORECASE` flag used when `case_sensitive` is false. -/
def chMatch (case_sensitive : Bool) (p c : Char) : Bool :=
  if case_sensitive then c == p else c.toLower == p.toLower

/-- Consume a literal keyword (case per flag); `some rest` on success. -/
def eatLit (case_sensitive : Bool) : List Char → List Char → Option (List Char)
  | [], l => some l
  | _ :: _, [] => none
  | p :: ps, c :: t => if chMatch case_sensitive p c then eatLit case_sensitive ps t else none

/-- Greedy `\s*`. -/
def skipSpaces : List Char → List Char
  | [] => []
  | c :: t => if c.isWhitespace then skipSpaces t else c :: t

/-- An optional single character (`[=#]?`, `\"?`, `\.?`, `[=:]?`). -/
def skipOpt (p : Char → Bool) : List Char → List Char
  | [] => []
  | c :: t => if p c then t else c :: t

/-- Greedy run of digits. -/
def dropDigits : List Char → List Char
  | [] => []
  | c :: t => if c.isDigit then dropDigits t else c :: t

/-- `\d+\b`: at least one digit, with a word boundary after the maximal
digit run (end of line or a non-word character). -/
def digitsThenBoundary : List Char → Bool
  | [] => false
  | c :: t =>
    c.isDigit &&
      (match dropDigits t with
       | [] => true
       | d :: _ => !isWordChar d)

/-- Pattern A of `_tool_number_match`, matched at the start of a suffix
(the `\b` before the `T` is checked by the searcher):
`\bT\s*[=#]?\s*\"?\s*\d+\b`. -/
def patA (case_sensitive : Bool) : List Char → Bool
  | [] => false
  | c :: t =>
    chMatch case_sensitive 'T' c &&
      digitsThenBoundary
        (skipSpaces (skipOpt (fun d => d == '"')
          (skipSpaces (skipOpt (fun d => d == '=' || d == '#') (skipSpaces t)))))

/-- Pattern B of `_tool_number_match`, matched at the start of a suffix:
`\bTOOL\s*(?:NO\.?)?\s*[=:]?\s*\d+\b`.  Taking the optional `NO` (and the
optional period) greedily is faithful to the regex, because when the
group is present but skipped the continuation must immediately read a
digit, which `N` (or `.`) is not. -/
def patB (case_sensitive : Bool) (l : List Char) : Bool :=
  match eatLit case_sensitive ['T', 'O', 'O', 'L'] l with
  | none => false
  | some r1 =>
    let r2 := skipSpaces r1
    let r3 := match eatLit case_sensitive ['N', 'O'] r2 with
              | some q => skipOpt (fun d => d == '.') q
              | none => r2
    digitsThenBoundary (skipSpaces (skipOpt (fun d => d == '=' || d == ':') (skipSpaces r3)))

/-- Pattern C of `_tool_number_match`, matched at the start of a suffix:
`\bTOOL\s*CALL\s*\d+\b`. -/
def patC (case_sensitive : Bool) (l : List Char) : Bool :=
  match eatLit case_sensitive ['T', 'O', 'O', 'L'] l with
  | none => false
  | some r1 =>
    match eatLit case_sensitive ['C', 'A', 'L', 'L'] (skipSpaces r1) with
    | none => false
    | some r2 => digitsThenBoundary (skipSpaces r2)

/-- `re.search`: try the pattern at every suffix whose start sits at a
word boundary (all three patterns begin with the word character `T`, so
`\b` there means: start of line or a non-word character before). -/
def searchPat (p : List Char → Bool) : Option Char → List Char → Bool
  | _, [] => false
  | prev, c :: t =>
    ((match prev with
      | none => true
      | some d => !isWordChar d) && p (c :: t))
      || searchPat p (some c) t

/-- `_tool_number_match` from the source: empty line never matches;
otherwise the three patterns are tried in turn, any match suffices. -/
def _tool_number_match (line : String) (case_sensitive : Bool) : Bool :=
  if line.data.isEmpty then false
  else
    searchPat (patA case_sensitive) none line.data
      || searchPat (patB case_sensitive) none line.data
      || searchPat (patC case_sensitive) none line.data

/-- The scan configuration: the five search strings and two flags of
`scan_file_for_hits` (also the searchable fields of `AppConfig`). -/
structure ScanConfig where
  target_text : String
  parent_text : String
  use_parent : Bool
  op_no_text : String
  tool_change_text : String
  case_sensitive : Bool
deriving DecidableEq

/-- The default configuration of `AppConfig`. -/
def defaultConfig : ScanConfig :=
  { target_text := "POST-GENERATED"
    parent_text := "OPERATION NAME"
    use_parent := true
    op_no_text := "OPERATION NO. ="
    tool_change_text := "M06"
    case_sensitive := false }

/-- One emitted row of `scan_file_for_hits` (the dict appended to `rows`). -/
structure HitRecord where
  hit_index : Nat
  line_number : Nat
  target_text : String
  target_line : String
  operation_no_line : String
  tool_number_line : String
  tool_change_line : String
  parent_line : String
deriving DecidableEq

/-- The four rolling trackers (`last_parent`, `last_op_no`,
`last_tool_change`, `last_tool_number`), `none` embedding Python `None`. -/
structure ScanState where
  last_parent : Option String
  last_op_no : Option String
  last_tool_change : Option String
  last_tool_number : Option String
deriving DecidableEq

def initState : ScanState := ⟨none, none, none, none⟩

/-- `if use_parent and parent_text and _contains(...): last_parent = stripped`. -/
def updParent (cfg : ScanConfig) (st : ScanState) (stripped : String) : ScanState :=
  if cfg.use_parent && cfg.parent_text != "" &&
      _contains stripped cfg.parent_text cfg.case_sensitive then
    { st with last_parent := some stripped }
  else st

/-- `if op_no_text and _contains(...): last_op_no = stripped`. -/
def updOpNo (cfg : ScanConfig) (st : ScanState) (stripped : String) : ScanState :=
  if cfg.op_no_text != "" && _contains stripped cfg.op_no_text cfg.case_sensitive then
    { st with last_op_no := some stripped }
  else st

/-- `if tool_change_text and _contains(...): last_tool_change = stripped`. -/
def updToolChange (cfg : ScanConfig) (st : ScanState) (stripped : String) : ScanState :=
  if cfg.tool_change_text != "" && _contains stripped cfg.tool_change_text cfg.case_sensitive then
    { st with last_tool_change := some stripped }
  else st

/-- `if _tool_number_match(stripped, case_sensitive): last_tool_number = stripped`. -/
def updToolNumber (cfg : ScanConfig) (st : ScanState) (stripped : String) : ScanState :=
  if _tool_number_match stripped cfg.case_sensitive then
    { st with last_tool_number := some stripped }
  else st

/-- The tracker updates of one loop iteration, in source order: parent,
operation number, tool change, then (before the hit check) tool number. -/
def updateTrackers (cfg : ScanConfig) (st : ScanState) (stripped : String) : ScanState :=
  updToolNumber cfg (updToolChange cfg (updOpNo cfg (updParent cfg st stripped) stripped) stripped) stripped

/-- The dict appended to `rows` on a target hit: `nhits` is `len(rows)`
so far, `idx` the 0-based line index, `st` the trackers after this
line's updates; `x or ""` becomes `Option.getD x ""`. -/
def mkHit (cfg : ScanConfig) (st : ScanState) (nhits idx : Nat) (stripped : String) : HitRecord :=
  { hit_index := nhits + 1
    line_number := idx + 1
    target_text := cfg.target_text
    target_line := stripped
    operation_no_line := st.last_op_no.getD ""
    tool_number_line := st.last_tool_number.getD ""
    tool_change_line := st.last_tool_change.getD ""
    parent_line := st.last_parent.getD "" }

/-- The scanning loop of `scan_file_for_hits`: `idx` is the 0-based index
of the next line, `nhits` the number of rows already emitted, `st` the
current trackers. -/
def scanFrom (cfg : ScanConfig) : List String → Nat → Nat → ScanState → List HitRecord
  | [], _, _, _ => []
  | line :: rest, idx, nhits, st =>
    let stripped := pyStrip line
    let st1 := updateTrackers cfg st stripped
    if cfg.target_text != "" && _contains stripped cfg.target_text cfg.case_sensitive then
      mkHit cfg st1 nhits idx stripped :: scanFrom cfg rest (idx + 1) (nhits + 1) st1
    else
      scanFrom cfg rest (idx + 1) nhits st1

/-- `scan_file_for_hits`, as a pure function of the decoded lines and the
configuration: `return rows, len(rows)`. -/
def scan_file_for_hits (cfg : ScanConfig) (lines : List String) : List HitRecord × Nat :=
  let rows := scanFrom cfg lines 0 0 initState
  (rows, rows.length)

/-- The fixed CSV column order of `write_csv_report`. -/
def csvFieldnames : List String :=
  ["total_hits", "hit_index", "line_number", "target_text", "target_line",
   "operation_no_line", "tool_number_line", "tool_change_line", "parent_line"]

/-- One data row written by `write_csv_report`: `{"total_hits": total_hits, **r}`
laid out in `csvFieldnames` order. -/
def csvRow (total_hits : Nat) (r : HitRecord) : List String :=
  [toString total_hits, toString r.hit_index, toString r.line_number,
   r.target_text, r.target_line, r.operation_no_line, r.tool_number_line,
   r.tool_change_line, r.parent_line]

/-- `write_csv_report`, modelled as the list of rows it writes (header
first, then one data row per hit). -/
def write_csv_report (rows : List HitRecord) (total_hits : Nat) : List (List String) :=
  csvFieldnames :: rows.map (csvRow total_hits)

/-! ### Helper lemmas about `_contains` and the tracker updates -/

/-- The empty needle never matches. -/
lemma contains_empty_needle (h : String) (k : Bool) : _contains h "" k = false := rfl

/-- An occurrence needs a non-empty haystack (the needle is non-empty past
the guard), so a tracker is only ever set to a non-empty line. -/
lemma contains_haystack_ne (n : String) (k : Bool) :
    _contains "" n k = false := by
  unfold _contains
  rcases hn : n.data.isEmpty with _ | _
  · simp only [hn, Bool.false_eq_true, if_false]
    split
    · show occursIn n.data "".data = false
      have : occursIn n.data [] = n.data.isEmpty := rfl
      simpa [this] using hn
    · show occursIn (strLower n).data (strLower "").data = false
      have h1 : (strLower "").data = ([] : List Char) := rfl
      have h2 : occursIn (strLower n).data [] = (strLower n).data.isEmpty := rfl
      have h3 : (strLower n).data.isEmpty = n.data.isEmpty := by
        show (List.map Char.toLower n.data).isEmpty = n.data.isEmpty
        cases n.data <;> rfl
      simp [h1, h2, h3, hn]
  · simp [hn]

lemma contains_ne_empty {h n : String} {k : Bool} (hc : _contains h n k = true) :
    h ≠ "" := by
  intro he
  rw [he, contains_haystack_ne] at hc
  exact Bool.false_ne_true hc

/-- A non-empty line is needed for the tool-number heuristic as well. -/
lemma tool_number_ne_empty {s : String} {k : Bool}
    (hm : _tool_number_match s k = true) : s ≠ "" := by
  intro he
  rw [he] at hm
  exact Bool.false_ne_true hm

/-- Each single-tracker update leaves the other three trackers alone. -/
lemma updParent_last_op_no (cfg : ScanConfig) (st : ScanState) (s : String) :
    (updParent cfg st s).last_op_no = st.last_op_no := by
  unfold updParent; split <;> rfl

lemma updParent_last_tool_change (cfg : ScanConfig) (st : ScanState) (s : String) :
    (updParent cfg st s).last_tool_change = st.last_tool_change := by
  unfold updParent; split <;> rfl

lemma updParent_last_tool_number (cfg : ScanConfig) (st : ScanState) (s : String) :
    (updParent cfg st s).last_tool_number = st.last_tool_number := by
  unfold updParent; split <;> rfl

lemma updOpNo_last_parent (cfg : ScanConfig) (st : ScanState) (s : String) :
    (updOpNo cfg st s).last_parent = st.last_parent := by
  unfold updOpNo; split <;> rfl

lemma updOpNo_last_tool_change (cfg : ScanConfig) (st : ScanState) (s : String) :
    (updOpNo cfg st s).last_tool_change = st.last_tool_change := by
  unfold updOpNo; split <;> rfl

lemma updOpNo_last_tool_number (cfg : ScanConfig) (st : ScanState) (s : String) :
    (updOpNo cfg st s).last_tool_number = st.last_tool_number := by
  unfold updOpNo; split <;> rfl

lemma updToolChange_last_parent (cfg : ScanConfig) (st : ScanState) (s : String) :
    (updToolChange cfg st s).last_parent = st.last_parent := by
  unfold updToolChange; split <;> rfl

lemma updToolChange_last_op_no (cfg : ScanConfig) (st : ScanState) (s : String) :
    (updToolChange cfg st s).last_op_no = st.last_op_no := by
  unfold updToolChange; split <;> rfl

lemma updToolChange_last_tool_number (cfg : ScanConfig) (st : ScanState) (s : String) :
    (updToolChange cfg st s).last_tool_number = st.last_tool_number := by
  unfold updToolChange; split <;> rfl

lemma updToolNumber_last_parent (cfg : ScanConfig) (st : ScanState) (s : String) :
    (updToolNumber cfg st s).last_parent = st.last_parent := by
  unfold updToolNumber; split <;> rfl

lemma updToolNumber_last_op_no (cfg : ScanConfig) (st : ScanState) (s : String) :
    (updToolNumber cfg st s).last_op_no = st.last_op_no := by
  unfold updToolNumber; split <;> rfl

lemma updToolNumber_last_tool_change (cfg : ScanConfig) (st : ScanState) (s : String) :
    (updToolNumber cfg st s).last_tool_change = st.last_tool_change := by
  unfold updToolNumber; split <;> rfl

/-- After one full line iteration, the parent tracker is unchanged or holds
the current line, and in the latter case the parent guard did fire. -/
lemma updateTrackers_parent_or (cfg : ScanConfig) (st : ScanState) (s : String) :
    (updateTrackers cfg st s).last_parent = st.last_parent ∨
      ((updateTrackers cfg st s).last_parent = some s ∧ cfg.use_parent = true ∧
        _contains s cfg.parent_text cfg.case_sensitive = true) := by
  unfold updateTrackers
  rw [updToolNumber_last_parent, updToolChange_last_parent, updOpNo_last_parent]
  unfold updParent
  split
  · next hg =>
    simp only [Bool.and_eq_true] at hg
    exact Or.inr ⟨rfl, hg.1.1, hg.2⟩
  · exact Or.inl rfl

lemma updateTrackers_op_no_or (cfg : ScanConfig) (st : ScanState) (s : String) :
    (updateTrackers cfg st s).last_op_no = st.last_op_no ∨
      ((updateTrackers cfg st s).last_op_no = some s ∧
        _contains s cfg.op_no_text cfg.case_sensitive = true) := by
  unfold updateTrackers
  rw [updToolNumber_last_op_no, updToolChange_last_op_no]
  unfold updOpNo
  split
  · next hg =>
    simp only [Bool.and_eq_true] at hg
    exact Or.inr ⟨rfl, hg.2⟩
  · exact Or.inl (updParent_last_op_no ..)

lemma updateTrackers_tool_change_or (cfg : ScanConfig) (st : ScanState) (s : String) :
    (updateTrackers cfg st s).last_tool_change = st.last_tool_change ∨
      ((updateTrackers cfg st s).last_tool_change = some s ∧
        _contains s cfg.tool_change_text cfg.case_sensitive = true) := by
  unfold updateTrackers
  rw [updToolNumber_last_tool_change]
  unfold updToolChange
  split
  · next hg =>
    simp only [Bool.and_eq_true] at hg
    exact Or.inr ⟨rfl, hg.2⟩
  · exact Or.inl (by rw [updOpNo_last_tool_change, updParent_last_tool_change])

lemma updateTrackers_tool_number_or (cfg : ScanConfig) (st : ScanState) (s : String) :
    (updateTrackers cfg st s).last_tool_number = st.last_tool_number ∨
      ((updateTrackers cfg st s).last_tool_number = some s ∧
        _tool_number_match s cfg.case_sensitive = true) := by
  unfold updateTrackers updToolNumber
  split
  · next hg => exact Or.inr ⟨rfl, hg⟩
  · exact Or.inl (by rw [updToolChange_last_tool_number, updOpNo_last_tool_number,
      updParent_last_tool_number])

/-- The same-line contract: a tool-number line is in `last_tool_number`
already when the hit check of that very line runs. -/
lemma updateTrackers_tool_number_set (cfg : ScanConfig) (st : ScanState) {s : String}
    (hm : _tool_number_match s cfg.case_sensitive = true) :
    (updateTrackers cfg st s).last_tool_number = some s := by
  unfold updateTrackers updToolNumber
  simp [hm]

/-- With `use_parent` false or an empty `parent_text`, the parent tracker
never moves. -/
lemma updateTrackers_parent_frozen (cfg : ScanConfig) (st : ScanState) (s : String)
    (h : cfg.use_parent = false ∨ cfg.parent_text = "") :
    (updateTrackers cfg st s).last_parent = st.last_parent := by
  rcases updateTrackers_parent_or cfg st s with h1 | ⟨_, hu, hc⟩
  · exact h1
  · rcases h with h | h
    · rw [h] at hu; exact absurd hu (by simp)
    · rw [h, contains_empty_needle] at hc
      exact absurd hc (by simp)

lemma updateTrackers_op_no_frozen (cfg : ScanConfig) (st : ScanState) (s : String)
    (h : cfg.op_no_text = "") :
    (updateTrackers cfg st s).last_op_no = st.last_op_no := by
  rcases updateTrackers_op_no_or cfg st s with h1 | ⟨_, hc⟩
  · exact h1
  · rw [h, contains_empty_needle] at hc
    exact absurd hc (by simp)

lemma updateTrackers_tool_change_frozen (cfg : ScanConfig) (st : ScanState) (s : String)
    (h : cfg.tool_change_text = "") :
    (updateTrackers cfg st s).last_tool_change = st.last_tool_change := by
  rcases updateTrackers_tool_change_or cfg st s with h1 | ⟨_, hc⟩
  · exact h1
  · rw [h, contains_empty_needle] at hc
    exact absurd hc (by simp)

/-! ### Helper lemmas about the scanning loop -/

/-- A tracker that no line iteration can move keeps, in every emitted
record, the value it had when the loop started. -/
lemma scanFrom_field_const (cfg : ScanConfig) (f : ScanState → Option String)
    (g : HitRecord → String)
    (hupd : ∀ st s, f (updateTrackers cfg st s) = f st)
    (hmk : ∀ st n i s, g (mkHit cfg st n i s) = (f st).getD "") :
    ∀ lines idx k st, ∀ r ∈ scanFrom cfg lines idx k st, g r = (f st).getD "" := by
  intro lines
  induction lines with
  | nil => intro idx k st r hr; simp [scanFrom] at hr
  | cons line rest ih =>
    intro idx k st r hr
    simp only [scanFrom] at hr
    split at hr
    · rcases List.mem_cons.mp hr with h0 | h1
      · rw [h0, hmk, hupd]
      · rw [ih (idx + 1) (k + 1) _ r h1, hupd]
    · rw [ih (idx + 1) k _ r hr, hupd]

/-- With an empty target text the hit check never fires: no rows at all. -/
lemma scanFrom_target_empty (cfg : ScanConfig) (h : cfg.target_text = "") :
    ∀ lines idx k st, scanFrom cfg lines idx k st = [] := by
  intro lines
  induction lines with
  | nil => intro idx k st; rfl
  | cons line rest ih =>
    intro idx k st
    simp only [scanFrom, h, contains_empty_needle]
    exact ih (idx + 1) k _

/-- The `hit_index` fields count up from `k + 1` in emission order, where
`k` is the number of rows emitted before the loop resumes. -/
lemma scanFrom_map_hit_index (cfg : ScanConfig) :
    ∀ lines idx k st,
      (scanFrom cfg lines idx k st).map (fun r => r.hit_index) =
        List.range' (k + 1) (scanFrom cfg lines idx k st).length := by
  intro lines
  induction lines with
  | nil => intro idx k st; rfl
  | cons line rest ih =>
    intro idx k st
    simp only [scanFrom]
    split
    · simp only [List.map_cons, List.length_cons, List.range'_succ, mkHit]
      exact congrArg (List.cons (k + 1)) (ih (idx + 1) (k + 1) _)
    · exact ih (idx + 1) k _

/-- Claim C1's engine: every emitted record whose own (trimmed) line is a
tool-number line carries that very line in `tool_number_line`. -/
lemma scanFrom_same_line_tool_number (cfg : ScanConfig) :
    ∀ lines idx k st, ∀ r ∈ scanFrom cfg lines idx k st,
      _tool_number_match r.target_line cfg.case_sensitive = true →
      r.tool_number_line = r.target_line := by
  intro lines
  induction lines with
  | nil => intro idx k st r hr; simp [scanFrom] at hr
  | cons line rest ih =>
    intro idx k st r hr
    simp only [scanFrom] at hr
    split at hr
    · rcases List.mem_cons.mp hr with h0 | h1
      · intro hm
        rw [h0] at hm ⊢
        simp only [mkHit] at hm ⊢
        rw [updateTrackers_tool_number_set cfg st hm]
        rfl
      · exact ih (idx + 1) (k + 1) _ r h1
    · exact ih (idx + 1) k _ r hr

/-- Every record emitted from line index `idx` on has a line number past
`idx`. -/
lemma scanFrom_line_number_lt (cfg : ScanConfig) :
    ∀ lines idx k st, ∀ r ∈ scanFrom cfg lines idx k st, idx < r.line_number := by
  intro lines
  induction lines with
  | nil => intro idx k st r hr; simp [scanFrom] at hr
  | cons line rest ih =>
    intro idx k st r hr
    simp only [scanFrom] at hr
    split at hr
    · rcases List.mem_cons.mp hr with h0 | h1
      · rw [h0]; exact Nat.lt_succ_self idx
      · exact Nat.lt_of_succ_lt (ih (idx + 1) (k + 1) _ r h1)
    · exact Nat.lt_of_succ_lt (ih (idx + 1) k _ r hr)

/-- Line numbers strictly increase along the emitted sequence. -/
lemma scanFrom_pairwise_line_number (cfg : ScanConfig) :
    ∀ lines idx k st,
      (scanFrom cfg lines idx k st).Pairwise
        (fun a b => a.line_number < b.line_number) := by
  intro lines
  induction lines with
  | nil => intro idx k st; exact List.Pairwise.nil
  | cons line rest ih =>
    intro idx k st
    simp only [scanFrom]
    split
    · refine List.Pairwise.cons ?_ (ih (idx + 1) (k + 1) _)
      intro r hr
      exact scanFrom_line_number_lt cfg rest (idx + 1) (k + 1) _ r hr
    · exact ih (idx + 1) k _

/-! ### Monotonicity of the trackers (claim C10's machinery) -/

/-- A tracker slot that is unset or holds a non-empty line. -/
def GoodOpt (o : Option String) : Prop := ∀ v, o = some v → v ≠ ""

/-- All four tracker slots are unset or hold non-empty lines — true
initially and preserved by every line iteration, because a tracker is
only ever overwritten with a line a search just matched inside. -/
def TrackersGood (st : ScanState) : Prop :=
  GoodOpt st.last_parent ∧ GoodOpt st.last_op_no ∧
    GoodOpt st.last_tool_change ∧ GoodOpt st.last_tool_number

lemma trackersGood_init : TrackersGood initState := by
  refine ⟨?_, ?_, ?_, ?_⟩ <;> intro v hv <;> exact absurd hv (by simp [initState])

lemma goodOpt_some {s : String} (hs : s ≠ "") : GoodOpt (some s) := by
  intro v hv
  rw [Option.some_inj] at hv
  rw [hv] at hs
  exact hs

lemma trackersGood_upd (cfg : ScanConfig) (st : ScanState) (s : String)
    (h : TrackersGood st) : TrackersGood (updateTrackers cfg st s) := by
  obtain ⟨h1, h2, h3, h4⟩ := h
  refine ⟨?_, ?_, ?_, ?_⟩
  · rcases updateTrackers_parent_or cfg st s with he | ⟨he, _, hc⟩
    · rw [he]; exact h1
    · rw [he]; exact goodOpt_some (contains_ne_empty hc)
  · rcases updateTrackers_op_no_or cfg st s with he | ⟨he, hc⟩
    · rw [he]; exact h2
    · rw [he]; exact goodOpt_some (contains_ne_empty hc)
  · rcases updateTrackers_tool_change_or cfg st s with he | ⟨he, hc⟩
    · rw [he]; exact h3
    · rw [he]; exact goodOpt_some (contains_ne_empty hc)
  · rcases updateTrackers_tool_number_or cfg st s with he | ⟨he, hc⟩
    · rw [he]; exact h4
    · rw [he]; exact goodOpt_some (tool_number_ne_empty hc)

/-- A good slot reads back as a non-empty string exactly when it is set. -/
lemma goodOpt_getD_ne {o : Option String} (h : GoodOpt o) :
    o.getD "" ≠ "" ↔ o.isSome = true := by
  cases o with
  | none => simp
  | some v =>
    simp only [Option.getD_some, Option.isSome_some, iff_true]
    exact h v rfl

/-- A set tracker stays set across one line iteration. -/
lemma updateTrackers_isSome_parent (cfg : ScanConfig) (st : ScanState) (s : String)
    (h : st.last_parent.isSome = true) :
    (updateTrackers cfg st s).last_parent.isSome = true := by
  rcases updateTrackers_parent_or cfg st s with he | ⟨he, _, _⟩ <;> rw [he] <;> simp_all

lemma updateTrackers_isSome_op_no (cfg : ScanConfig) (st : ScanState) (s : String)
    (h : st.last_op_no.isSome = true) :
    (updateTrackers cfg st s).last_op_no.isSome = true := by
  rcases updateTrackers_op_no_or cfg st s with he | ⟨he, _⟩ <;> rw [he] <;> simp_all

lemma updateTrackers_isSome_tool_change (cfg : ScanConfig) (st : ScanState) (s : String)
    (h : st.last_tool_change.isSome = true) :
    (updateTrackers cfg st s).last_tool_change.isSome = true := by
  rcases updateTrackers_tool_change_or cfg st s with he | ⟨he, _⟩ <;> rw [he] <;> simp_all

lemma updateTrackers_isSome_tool_number (cfg : ScanConfig) (st : ScanState) (s : String)
    (h : st.last_tool_number.isSome = true) :
    (updateTrackers cfg st s).last_tool_number.isSome = true := by
  rcases updateTrackers_tool_number_or cfg st s with he | ⟨he, _⟩ <;> rw [he] <;> simp_all

/-- Once a tracker is set, every later record carries a non-empty value
for it. -/
lemma scanFrom_set_stays_nonempty (cfg : ScanConfig) :
    ∀ lines idx k st, TrackersGood st →
      ∀ r ∈ scanFrom cfg lines idx k st,
        (st.last_parent.isSome = true → r.parent_line ≠ "") ∧
        (st.last_op_no.isSome = true → r.operation_no_line ≠ "") ∧
        (st.last_tool_change.isSome = true → r.tool_change_line ≠ "") ∧
        (st.last_tool_number.isSome = true → r.tool_number_line ≠ "") := by
  intro lines
  induction lines with
  | nil => intro idx k st _ r hr; simp [scanFrom] at hr
  | cons line rest ih =>
    intro idx k st hst r hr
    simp only [scanFrom] at hr
    have hst1 := trackersGood_upd cfg st (pyStrip line) hst
    have key : ∀ q, q = mkHit cfg (updateTrackers cfg st (pyStrip line)) k idx (pyStrip line) →
        (st.last_parent.isSome = true → q.parent_line ≠ "") ∧
        (st.last_op_no.isSome = true → q.operation_no_line ≠ "") ∧
        (st.last_tool_change.isSome = true → q.tool_change_line ≠ "") ∧
        (st.last_tool_number.isSome = true → q.tool_number_line ≠ "") := by
      intro q hq
      rw [hq]
      simp only [mkHit]
      refine ⟨?_, ?_, ?_, ?_⟩
      · intro hi
        exact (goodOpt_getD_ne hst1.1).mpr (updateTrackers_isSome_parent cfg st _ hi)
      · intro hi
        exact (goodOpt_getD_ne hst1.2.1).mpr (updateTrackers_isSome_op_no cfg st _ hi)
      · intro hi
        exact (goodOpt_getD_ne hst1.2.2.1).mpr (updateTrackers_isSome_tool_change cfg st _ hi)
      · intro hi
        exact (goodOpt_getD_ne hst1.2.2.2).mpr (updateTrackers_isSome_tool_number cfg st _ hi)
    have tailcase : r ∈ scanFrom cfg rest (idx + 1) (k + 1) (updateTrackers cfg st (pyStrip line)) ∨
        r ∈ scanFrom cfg rest (idx + 1) k (updateTrackers cfg st (pyStrip line)) →
        (st.last_parent.isSome = true → r.parent_line ≠ "") ∧
        (st.last_op_no.isSome = true → r.operation_no_line ≠ "") ∧
        (st.last_tool_change.isSome = true → r.tool_change_line ≠ "") ∧
        (st.last_tool_number.isSome = true → r.tool_number_line ≠ "") := by
      intro hcase
      rcases hcase with hmem | hmem
      all_goals
        obtain ⟨p1, p2, p3, p4⟩ := ih _ _ _ hst1 r hmem
        exact ⟨fun hi => p1 (updateTrackers_isSome_parent cfg st _ hi),
               fun hi => p2 (updateTrackers_isSome_op_no cfg st _ hi),
               fun hi => p3 (updateTrackers_isSome_tool_change cfg st _ hi),
               fun hi => p4 (updateTrackers_isSome_tool_number cfg st _ hi)⟩
    split at hr
    · rcases List.mem_cons.mp hr with h0 | h1
      · exact key r h0
      · exact tailcase (Or.inl h1)
    · exact tailcase (Or.inr hr)

/-- The pairwise relation of claim C10: a context field non-empty in an
earlier hit is non-empty in every later hit. -/
def FieldsMono (a b : HitRecord) : Prop :=
  (a.parent_line ≠ "" → b.parent_line ≠ "") ∧
    (a.operation_no_line ≠ "" → b.operation_no_line ≠ "") ∧
    (a.tool_change_line ≠ "" → b.tool_change_line ≠ "") ∧
    (a.tool_number_line ≠ "" → b.tool_number_line ≠ "")

lemma scanFrom_pairwise_fields_mono (cfg : ScanConfig) :
    ∀ lines idx k st, TrackersGood st →
      (scanFrom cfg lines idx k st).Pairwise FieldsMono := by
  intro lines
  induction lines with
  | nil => intro idx k st _; exact List.Pairwise.nil
  | cons line rest ih =>
    intro idx k st hst
    simp only [scanFrom]
    have hst1 := trackersGood_upd cfg st (pyStrip line) hst
    split
    · refine List.Pairwise.cons ?_ (ih (idx + 1) (k + 1) _ hst1)
      intro r hr
      obtain ⟨p1, p2, p3, p4⟩ :=
        scanFrom_set_stays_nonempty cfg rest (idx + 1) (k + 1) _ hst1 r hr
      simp only [FieldsMono, mkHit]
      refine ⟨?_, ?_, ?_, ?_⟩
      · intro hne; exact p1 ((goodOpt_getD_ne hst1.1).mp hne)
      · intro hne; exact p2 ((goodOpt_getD_ne hst1.2.1).mp hne)
      · intro hne; exact p3 ((goodOpt_getD_ne hst1.2.2.1).mp hne)
      · intro hne; exact p4 ((goodOpt_getD_ne hst1.2.2.2).mp hne)
    · exact ih (idx + 1) k _ hst1

/-! ### The claims -/

/-- Claim C1: for every line stream and every configuration, if a single
line both matches the tool-number heuristic and contains the target text
(so that a hit is emitted for it), then that hit's `tool_number_line`
equals the line's own trimmed text: the tool-number tracker update
executes before hit emission within the same line iteration. -/
theorem C1_same_line_update_precedes_emission (cfg : ScanConfig) (lines : List String)
    (r : HitRecord) (hr : r ∈ (scan_file_for_hits cfg lines).1)
    (hm : _tool_number_match r.target_line cfg.case_sensitive = true) :
    r.tool_number_line = r.target_line :=
  scanFrom_same_line_tool_number cfg lines 0 0 initState r hr hm

/-- The configuration and the hit of claim C1's witness run: one line that
is simultaneously a tool-number line and a target hit. -/
def c1Cfg : ScanConfig :=
  { target_text := "T10", parent_text := "", use_parent := false,
    op_no_text := "", tool_change_text := "", case_sensitive := false }

def c1Hit : HitRecord :=
  { hit_index := 1, line_number := 1, target_text := "T10", target_line := "N5 T10",
    operation_no_line := "", tool_number_line := "N5 T10", tool_change_line := "",
    parent_line := "" }

theorem C1_same_line_update_precedes_emission_witness :
    c1Hit.tool_number_line = c1Hit.target_line :=
  C1_same_line_update_precedes_emission c1Cfg ["N5 T10"] c1Hit (by decide) (by decide)

/-- Claim C2: scanning the four-line scenario with the default
configuration yields exactly one hit, with `hit_index` 1, `line_number`
4, the parent, operation-number and tool-number context filled from the
earlier lines, and an empty `tool_change_line`. -/
theorem C2_default_config_scenario :
    scan_file_for_hits defaultConfig
        ["OPERATION NAME: FACE1", "OPERATION NO. = 10", "N100 T10",
         "POST-GENERATED BLOCK A"] =
      ([{ hit_index := 1, line_number := 4, target_text := "POST-GENERATED",
          target_line := "POST-GENERATED BLOCK A",
          operation_no_line := "OPERATION NO. = 10",
          tool_number_line := "N100 T10", tool_change_line := "",
          parent_line := "OPERATION NAME: FACE1" }], 1) := by
  decide

/-- Claim C3: for every line stream and configuration the returned total
equals the length of the returned hit sequence, the `hit_index` fields
are exactly `1, 2, ..., total` in emission order, and an empty
`target_text` yields `([], 0)` regardless of line content. -/
theorem C3_total_count_and_hit_indices (cfg : ScanConfig) (lines : List String) :
    (scan_file_for_hits cfg lines).2 = (scan_file_for_hits cfg lines).1.length ∧
    (scan_file_for_hits cfg lines).1.map (fun r => r.hit_index) =
      List.range' 1 (scan_file_for_hits cfg lines).2 ∧
    (cfg.target_text = "" → scan_file_for_hits cfg lines = ([], 0)) := by
  refine ⟨rfl, ?_, ?_⟩
  · exact scanFrom_map_hit_index cfg lines 0 0 initState
  · intro h
    simp [scan_file_for_hits, scanFrom_target_empty cfg h]

theorem C3_total_count_and_hit_indices_witness :
    scan_file_for_hits
        ⟨"", "OPERATION NAME", true, "OPERATION NO. =", "M06", false⟩
        ["OPERATION NAME: A", "POST-GENERATED B"] = ([], 0) :=
  (C3_total_count_and_hit_indices _ _).2.2 rfl

/-- Claim C4: an empty configured search string can never match: its
`_contains` check is false on every line, the corresponding tracker is
never moved by a line iteration, an empty `target_text` emits no hits at
all, and the corresponding field of every emitted record is empty. -/
theorem C4_empty_search_string_never_matches (cfg : ScanConfig) (lines : List String) :
    (∀ h k, _contains h "" k = false) ∧
    (∀ st s, cfg.parent_text = "" →
      (updateTrackers cfg st s).last_parent = st.last_parent) ∧
    (∀ st s, cfg.op_no_text = "" →
      (updateTrackers cfg st s).last_op_no = st.last_op_no) ∧
    (∀ st s, cfg.tool_change_text = "" →
      (updateTrackers cfg st s).last_tool_change = st.last_tool_change) ∧
    (cfg.target_text = "" → (scan_file_for_hits cfg lines).1 = []) ∧
    (∀ r ∈ (scan_file_for_hits cfg lines).1,
      (cfg.target_text = "" → r.target_text = "") ∧
      (cfg.parent_text = "" → r.parent_line = "") ∧
      (cfg.op_no_text = "" → r.operation_no_line = "") ∧
      (cfg.tool_change_text = "" → r.tool_change_line = "")) := by
  refine ⟨contains_empty_needle,
    fun st s h => updateTrackers_parent_frozen cfg st s (Or.inr h),
    fun st s h => updateTrackers_op_no_frozen cfg st s h,
    fun st s h => updateTrackers_tool_change_frozen cfg st s h,
    fun h => scanFrom_target_empty cfg h lines 0 0 initState,
    ?_⟩
  intro r hr
  refine ⟨?_, ?_, ?_, ?_⟩
  · intro h
    have h0 : (scan_file_for_hits cfg lines).1 = [] := by
      simp [scan_file_for_hits, scanFrom_target_empty cfg h]
    rw [h0] at hr
    exact absurd hr (List.not_mem_nil r)
  · intro h
    exact scanFrom_field_const cfg (fun st => st.last_parent) (fun q => q.parent_line)
      (fun st s => updateTrackers_parent_frozen cfg st s (Or.inr h))
      (fun st n i s => rfl) lines 0 0 initState r hr
  · intro h
    exact scanFrom_field_const cfg (fun st => st.last_op_no) (fun q => q.operation_no_line)
      (fun st s => updateTrackers_op_no_frozen cfg st s h)
      (fun st n i s => rfl) lines 0 0 initState r hr
  · intro h
    exact scanFrom_field_const cfg (fun st => st.last_tool_change)
      (fun q => q.tool_change_line)
      (fun st s => updateTrackers_tool_change_frozen cfg st s h)
      (fun st n i s => rfl) lines 0 0 initState r hr

/-- Claim C5: the tool-number heuristic holds exactly when one of the
three word-boundary-delimited patterns matches somewhere in the line —
pattern A (`T`, optional `=`/`#`/quote noise, digits), pattern B
(`TOOL`, optional `NO` with optional period, optional `=`/`:`, digits),
pattern C (`TOOL CALL`, digits) — each evaluated independently, a match
on any one sufficing; the docstring's example forms all match. -/
theorem C5_tool_number_heuristic_three_patterns (line : String) (k : Bool) :
    (_tool_number_match line k =
      (searchPat (patA k) none line.data || searchPat (patB k) none line.data ||
        searchPat (patC k) none line.data)) ∧
    _tool_number_match "N52300 T10" true = true ∧
    _tool_number_match "N52300 T 10" true = true ∧
    _tool_number_match "N52300 T=10" true = true ∧
    _tool_number_match "N52300 T#10" true = true ∧
    _tool_number_match "N52300 T=\"10\"" true = true ∧
    _tool_number_match "N52300 TOOL 10" true = true ∧
    _tool_number_match "N52300 TOOL NO 10" true = true ∧
    _tool_number_match "N52300 TOOL NO. 10" true = true ∧
    _tool_number_match "N52300 TOOL CALL 10" true = true ∧
    _tool_number_match "NOTHING" false = false := by
  refine ⟨?_, by decide, by decide, by decide, by decide, by decide, by decide,
    by decide, by decide, by decide, by decide⟩
  unfold _tool_number_match
  split
  · next he =>
    rw [List.isEmpty_iff.mp he]
    rfl
  · rfl

/-- Claim C6: `case_sensitive` governs all comparisons uniformly — with
it false both `_contains` operands are lowercased before the substring
test (so `"post-generated"` matches a line holding `"POST-GENERATED"`,
and the tool-number patterns match a lower-case line), while with it
true `"post-generated"` does not match and a lower-case tool line does
not match the upper-case patterns. -/
theorem C6_case_sensitivity_uniform (h n : String) (hn : n ≠ "") :
    (_contains h n false = occursIn (strLower n).data (strLower h).data) ∧
    _contains "N999 POST-GENERATED BLOCK" "post-generated" false = true ∧
    _contains "N999 POST-GENERATED BLOCK" "post-generated" true = false ∧
    _tool_number_match "n52300 t10" false = true ∧
    _tool_number_match "n52300 t10" true = false := by
  refine ⟨?_, by decide, by decide, by decide, by decide⟩
  have hne : n.data.isEmpty = false := by
    rcases hd : n.data.isEmpty with _ | _
    · rfl
    · exact absurd (String.ext (List.isEmpty_iff.mp hd)) hn
  unfold _contains
  simp [hne]

theorem C6_case_sensitivity_uniform_witness :
    _contains "A" "b" false = occursIn (strLower "b").data (strLower "A").data :=
  (C6_case_sensitivity_uniform "A" "b" (by decide)).1

/-- Claim C7: with `use_parent` false the parent tracker is never moved
by any line iteration and `parent_line` is empty in every emitted hit,
even when `parent_text` is non-empty and occurs in the lines. -/
theorem C7_use_parent_false_disables_parent (cfg : ScanConfig) (lines : List String)
    (hup : cfg.use_parent = false) :
    (∀ st s, (updateTrackers cfg st s).last_parent = st.last_parent) ∧
    (∀ r ∈ (scan_file_for_hits cfg lines).1, r.parent_line = "") := by
  refine ⟨fun st s => updateTrackers_parent_frozen cfg st s (Or.inl hup), ?_⟩
  intro r hr
  exact scanFrom_field_const cfg (fun st => st.last_parent) (fun q => q.parent_line)
    (fun st s => updateTrackers_parent_frozen cfg st s (Or.inl hup))
    (fun st n i s => rfl) lines 0 0 initState r hr

/-- The configuration, lines and hit of claim C7's witness run:
`parent_text` occurs in the lines but `use_parent` is false. -/
def c7Cfg : ScanConfig :=
  { target_text := "POST-GENERATED", parent_text := "OPERATION NAME", use_parent := false,
    op_no_text := "", tool_change_text := "", case_sensitive := false }

def c7Hit : HitRecord :=
  { hit_index := 1, line_number := 2, target_text := "POST-GENERATED",
    target_line := "POST-GENERATED B", operation_no_line := "", tool_number_line := "",
    tool_change_line := "", parent_line := "" }

theorem C7_use_parent_false_disables_parent_witness : c7Hit.parent_line = "" :=
  (C7_use_parent_false_disables_parent c7Cfg ["OPERATION NAME: A", "POST-GENERATED B"]
    rfl).2 c7Hit (by decide)

/-- Claim C8: the report is a single header row with the nine columns in
their fixed order, followed by exactly one data row per hit, each data
row repeating the same `total_hits` value (the number of hits) in its
first cell; for an empty hit sequence the output is the header row
alone, so no data cell (in particular no `total_hits` value 0) is ever
written. -/
theorem C8_report_header_and_rows (hits : List HitRecord) :
    (write_csv_report hits hits.length).head? =
      some ["total_hits", "hit_index", "line_number", "target_text", "target_line",
            "operation_no_line", "tool_number_line", "tool_change_line", "parent_line"] ∧
    (write_csv_report hits hits.length).length = hits.length + 1 ∧
    (write_csv_report hits hits.length).tail = hits.map (csvRow hits.length) ∧
    ((write_csv_report hits hits.length).tail.all
        (fun row => row.head? == some (toString hits.length))) = true ∧
    write_csv_report [] 0 = [csvFieldnames] := by
  refine ⟨rfl, by simp [write_csv_report], rfl, ?_, rfl⟩
  show (hits.map (csvRow hits.length)).all _ = true
  rw [List.all_eq_true]
  intro row hrow
  rcases List.mem_map.mp hrow with ⟨r, _, hrr⟩
  rw [← hrr]
  simp [csvRow]

/-- Claim C9: the scanner emits at most one hit per input line — the
`line_number` values of the emitted sequence are strictly increasing, so
no line number is counted twice. -/
theorem C9_at_most_one_hit_per_line (cfg : ScanConfig) (lines : List String) :
    ((scan_file_for_hits cfg lines).1.map (fun r => r.line_number)).Pairwise (· < ·) ∧
    ∀ n : Nat,
      List.count n ((scan_file_for_hits cfg lines).1.map (fun r => r.line_number)) ≤ 1 := by
  have hp : ((scan_file_for_hits cfg lines).1.map (fun r => r.line_number)).Pairwise (· < ·) :=
    List.pairwise_map.mpr (scanFrom_pairwise_line_number cfg lines 0 0 initState)
  refine ⟨hp, ?_⟩
  have hnd : ((scan_file_for_hits cfg lines).1.map (fun r => r.line_number)).Nodup :=
    hp.imp (fun hab => Nat.ne_of_lt hab)
  exact List.nodup_iff_count_le_one.mp hnd

/-- Claim C10: trackers are only ever overwritten with a non-empty
trimmed line and never reset, so along the emitted hit sequence each of
the four context fields, once non-empty, stays non-empty in every later
hit. -/
theorem C10_context_fields_monotone (cfg : ScanConfig) (lines : List String) :
    (scan_file_for_hits cfg lines).1.Pairwise FieldsMono :=
  scanFrom_pairwise_fields_mono cfg lines 0 0 initState trackersGood_init

end MCDHunter
